import Mathlib

/-!
Shallow embedding of the blog application in `src/main.py`.

The application is a Flask app over three SQLAlchemy tables (users,
blog_posts, comments) with Flask-Login sessions.  We embed the database
as lists of rows, the session as the optional id of the logged-in user
(`none` = anonymous, as with Flask-Login's `AnonymousUserMixin`), and
each request handler as a function from server state to
`Except Err (ServerState × Response)`.  The `Err` branch models a Python
exception escaping the handler (Flask then answers 500, not a defined
response); `Response.forbidden` models `abort(403)`.

The password hasher (werkzeug's `generate_password_hash` /
`check_password_hash`) is an external library; it is embedded as an
abstract `Hasher` parameter.
-/

/-- Row of the `users` table (class `User` in `main.py`). -/
structure User where
  id : Nat
  email : String
  password : String
  name : String
  deriving Repr, DecidableEq

/-- Row of the `blog_posts` table (class `BlogPost` in `main.py`).
`author_id` is set from `current_user` on creation. -/
structure BlogPost where
  id : Nat
  author_id : Nat
  title : String
  subtitle : String
  date : String
  body : String
  img_url : String
  deriving Repr, DecidableEq

/-- Row of the `comments` table (class `Comment` in `main.py`).
`post_id` is a nullable foreign key: `show_post` passes
`parent_post=requested_post` where `requested_post` may be `None`. -/
structure Comment where
  id : Nat
  author_id : Nat
  post_id : Option Nat
  text : String
  deriving Repr, DecidableEq

/-- The three tables plus the autoincrement counters for primary keys. -/
structure DB where
  users : List User
  posts : List BlogPost
  comments : List Comment
  nextUserId : Nat
  nextPostId : Nat
  nextCommentId : Nat
  deriving Repr, DecidableEq

/-- Full per-request server state: database, Flask-Login session
(`some i` = cookie holding user id `i`, `none` = no session), and the
accumulated one-shot flash messages. -/
structure ServerState where
  db : DB
  session : Option Nat
  flashes : List String
  deriving Repr, DecidableEq

/-- The empty deployment state right after `db.create_all()`. -/
def initState : ServerState :=
  { db := { users := [], posts := [], comments := [],
            nextUserId := 1, nextPostId := 1, nextCommentId := 1 },
    session := none, flashes := [] }

/-- A response descriptor: a rendered template, a redirect to a named
route, or the 403 produced by `abort(403)`. -/
inductive Response where
  | render (template : String)
  | redirectPosts
  | redirectLogin
  | redirectPost (id : Nat)
  | forbidden
  deriving Repr, DecidableEq

/-- A Python exception escaping a handler. -/
inductive Err where
  /-- `AttributeError`: attribute access on `None` or on the anonymous
  `current_user` (which has no `id` attribute). -/
  | attributeError
  /-- SQLAlchemy `UnmappedInstanceError` from `db.session.delete(None)`. -/
  | unmappedInstanceError
  deriving Repr, DecidableEq

/-- Abstract embedding of werkzeug's password hashing:
`hash` = `generate_password_hash`, `check` = `check_password_hash`
(stored digest first, candidate plaintext second). -/
structure Hasher where
  hash : String → String
  check : String → String → Bool

/-- `load_user` / `current_user` resolution: Flask-Login turns the
session's stored id back into a `User` row; a session id that resolves
to no row, or no session at all, yields the anonymous identity. -/
def currentUser (s : ServerState) : Option User :=
  s.session.bind (fun i => s.db.users.find? (fun u => u.id = i))

/-- The `admin_only` decorator of `main.py`: it reads `current_user.id`
with no authentication check first, so the anonymous identity raises
`AttributeError`; an authenticated identity with id ≠ 1 gets
`abort(403)`; otherwise the wrapped handler body runs. -/
def admin_only (handler : ServerState → Except Err (ServerState × Response))
    (s : ServerState) : Except Err (ServerState × Response) :=
  match currentUser s with
  | none => .error .attributeError
  | some u => if u.id ≠ 1 then .ok (s, .forbidden) else handler s

/-- `get_all_posts` (route `/`): the list-all query result handed to the
template, plus the rendered response. -/
def get_all_posts (s : ServerState) : List BlogPost × Response :=
  (s.db.posts, .render "index.html")

/-- The duplicate-email flash message of `register`. -/
def dupEmailMsg : String :=
  "You\x27ve already signed up with that email, log in instead!"

/-- `register`, POST branch with a validated form (email, password,
name).  Rejects an already-registered email with a flash and a redirect
to login; otherwise stores the hash, creates the user, logs in, and
redirects to the post list. -/
def register (hasher : Hasher) (email password name : String)
    (s : ServerState) : Except Err (ServerState × Response) :=
  if (s.db.users.find? (fun u => u.email = email)).isSome then
    .ok ({ s with flashes := s.flashes ++ [dupEmailMsg] }, .redirectLogin)
  else
    let newUser : User :=
      { id := s.db.nextUserId, email := email,
        password := hasher.hash password, name := name }
    .ok ({ s with
            db := { s.db with users := s.db.users ++ [newUser],
                              nextUserId := s.db.nextUserId + 1 },
            session := some newUser.id }, .redirectPosts)

/-- `login`, POST branch with a validated form.  Unknown email and
failed password check each flash and redirect back to login; a
verifying password calls `login_user` and redirects to the post list. -/
def login (hasher : Hasher) (email password : String)
    (s : ServerState) : Except Err (ServerState × Response) :=
  match s.db.users.find? (fun u => u.email = email) with
  | some user =>
      if hasher.check user.password password then
        .ok ({ s with session := some user.id }, .redirectPosts)
      else
        .ok ({ s with flashes :=
                 s.flashes ++ ["Password incorrect, please try again"] },
             .redirectLogin)
  | none =>
      .ok ({ s with flashes :=
               s.flashes ++ ["That email does not exist, please try again"] },
           .redirectLogin)

/-- `logout`: `logout_user()` then redirect to the post list. -/
def logout (s : ServerState) : Except Err (ServerState × Response) :=
  .ok ({ s with session := none }, .redirectPosts)

/-- The `for post in posts: if post.id == index: requested_post = post`
loop of `show_post`: the last matching row, `none` when no row matches. -/
def requestedPost (posts : List BlogPost) (index : Nat) : Option BlogPost :=
  posts.foldl (fun acc post => if post.id = index then some post else acc) none

/-- `show_post`, GET branch (or POST with a non-validating form): reads
only, renders the page (with `post=None` when the id matches nothing). -/
def show_post_get (index : Nat) (s : ServerState) :
    Except Err (ServerState × Response) :=
  let _ := requestedPost s.db.posts index
  .ok (s, .render "post.html")

/-- `show_post`, POST branch with a validated comment form.  An
anonymous submitter is flashed and redirected to login; an
authenticated one gets a `Comment` with `comment_author=current_user`
and `parent_post=requested_post` committed, then the page re-renders. -/
def show_post_comment (text : String) (index : Nat) (s : ServerState) :
    Except Err (ServerState × Response) :=
  let reqPost := requestedPost s.db.posts index
  match currentUser s with
  | none =>
      .ok ({ s with flashes :=
               s.flashes ++ ["YOu need to login or register to comment"] },
           .redirectLogin)
  | some u =>
      let newComment : Comment :=
        { id := s.db.nextCommentId, author_id := u.id,
          post_id := reqPost.map BlogPost.id, text := text }
      .ok ({ s with
              db := { s.db with
                        comments := s.db.comments ++ [newComment],
                        nextCommentId := s.db.nextCommentId + 1 } },
           .render "post.html")

/-- A calendar date as the handler sees `datetime.datetime.now()`. -/
structure Date where
  year : Nat
  month : Nat
  day : Nat
  deriving Repr, DecidableEq

/-- `%B`: the full English month name (empty for an out-of-range month,
which `datetime` never produces). -/
def monthName : Nat → String
  | 1 => "January" | 2 => "February" | 3 => "March" | 4 => "April"
  | 5 => "May" | 6 => "June" | 7 => "July" | 8 => "August"
  | 9 => "September" | 10 => "October" | 11 => "November"
  | 12 => "December" | _ => ""

/-- `%d`: zero-padded day of the month. -/
def twoDigits (n : Nat) : String :=
  if n < 10 then "0" ++ toString n else toString n

/-- `today.strftime('%B %d, %Y')`: "Month DD, YYYY". -/
def formatDate (d : Date) : String :=
  monthName d.month ++ " " ++ twoDigits d.day ++ ", " ++ toString d.year

/-- `new_post`, POST branch with a validated form, behind `admin_only`.
Creates the post with the formatted current date and
`author=current_user`, then redirects to the post list. -/
def new_post (title subtitle body img_url : String) (today : Date) :
    ServerState → Except Err (ServerState × Response) :=
  admin_only (fun s =>
    match currentUser s with
    | none => .error .attributeError
    | some u =>
        let newBlog : BlogPost :=
          { id := s.db.nextPostId, author_id := u.id, title := title,
            subtitle := subtitle, date := formatDate today, body := body,
            img_url := img_url }
        .ok ({ s with
                db := { s.db with posts := s.db.posts ++ [newBlog],
                                  nextPostId := s.db.nextPostId + 1 } },
             .redirectPosts))

/-- `BlogPost.query.get(post_id)`: primary-key lookup. -/
def getPost (posts : List BlogPost) (post_id : Nat) : Option BlogPost :=
  posts.find? (fun p => p.id = post_id)

/-- `edit_post`, POST branch with a validated form, behind `admin_only`.
The handler reads `post.title` etc. to pre-fill the form before any
check, so a missing id raises `AttributeError`; otherwise the POST
overwrites title/subtitle/body/img_url in place, commits, and redirects
to the post's page. -/
def edit_post (post_id : Nat) (title subtitle body img_url : String) :
    ServerState → Except Err (ServerState × Response) :=
  admin_only (fun s =>
    match getPost s.db.posts post_id with
    | none => .error .attributeError
    | some _ =>
        let posts := s.db.posts.map (fun p =>
          if p.id = post_id then
            { p with title := title, subtitle := subtitle, body := body,
                     img_url := img_url }
          else p)
        .ok ({ s with db := { s.db with posts := posts } },
             .redirectPost post_id))

/-- `delete`, behind `admin_only`.  `db.session.delete` of the `None`
returned by a missing-id `query.get` raises `UnmappedInstanceError`;
otherwise the row is deleted and the handler redirects to the list. -/
def delete (post_id : Nat) :
    ServerState → Except Err (ServerState × Response) :=
  admin_only (fun s =>
    match getPost s.db.posts post_id with
    | none => .error .unmappedInstanceError
    | some _ =>
        .ok ({ s with
                db := { s.db with
                          posts := s.db.posts.filter
                            (fun p => ¬ p.id = post_id) } },
             .redirectPosts))

/-- One inbound request, abstracted to the handler and its validated
form data. -/
inductive Req where
  | register (email password name : String)
  | login (email password : String)
  | logout
  | showPost (index : Nat)
  | comment (text : String) (index : Nat)
  | newPost (title subtitle body img_url : String) (today : Date)
  | editPost (post_id : Nat) (title subtitle body img_url : String)
  | deletePost (post_id : Nat)

/-- Dispatch one request to its handler. -/
def step (hasher : Hasher) : Req → ServerState →
    Except Err (ServerState × Response)
  | .register e p n => register hasher e p n
  | .login e p => login hasher e p
  | .logout => logout
  | .showPost i => show_post_get i
  | .comment t i => show_post_comment t i
  | .newPost t st b img d => new_post t st b img d
  | .editPost pid t st b img => edit_post pid t st b img
  | .deletePost pid => delete pid

/-- The state after one request: an escaping exception aborts the
request before any commit, leaving the state unchanged. -/
def run (hasher : Hasher) (a : Req) (s : ServerState) : ServerState :=
  match step hasher a s with
  | .ok (s', _) => s'
  | .error _ => s

/-- The state after a sequence of requests. -/
def runAll (hasher : Hasher) (acts : List Req) (s : ServerState) :
    ServerState :=
  acts.foldl (fun st a => run hasher a st) s

/-- Referential integrity as claimed for comments: every comment
references an existing post and an existing user. -/
def commentsRefIntact (s : ServerState) : Prop :=
  ∀ c ∈ s.db.comments,
    (∃ p ∈ s.db.posts, c.post_id = some p.id) ∧
    (∃ u ∈ s.db.users, c.author_id = u.id)

instance (s : ServerState) : Decidable (commentsRefIntact s) := by
  unfold commentsRefIntact; infer_instance

/-- The author half of referential integrity: every comment's author is
an existing user. -/
def commentAuthorsOk (s : ServerState) : Prop :=
  ∀ c ∈ s.db.comments, ∃ u ∈ s.db.users, c.author_id = u.id

instance (s : ServerState) : Decidable (commentAuthorsOk s) := by
  unfold commentAuthorsOk; infer_instance

/-- A concrete stand-in hasher for closed evaluations. -/
def demoHasher : Hasher :=
  { hash := fun p => "pbkdf2:" ++ p,
    check := fun digest p => digest = "pbkdf2:" ++ p }

/-- A concrete admin row (id 1) for closed evaluations. -/
def adminUser : User :=
  { id := 1, email := "a@x.com", password := "pbkdf2:pw1", name := "Alice" }

/-- A concrete non-admin row for closed evaluations. -/
def bobUser : User :=
  { id := 2, email := "b@x.com", password := "pbkdf2:pw2", name := "Bob" }

/-- A concrete post row for closed evaluations. -/
def samplePost : BlogPost :=
  { id := 1, author_id := 1, title := "T", subtitle := "S",
    date := "January 01, 2024", body := "B", img_url := "http:img" }

/-- State with the admin registered and logged in, no posts. -/
def adminState : ServerState :=
  { db := { users := [adminUser], posts := [], comments := [],
            nextUserId := 2, nextPostId := 1, nextCommentId := 1 },
    session := some 1, flashes := [] }

/-- State with the admin logged in and one post. -/
def adminPostState : ServerState :=
  { db := { users := [adminUser], posts := [samplePost], comments := [],
            nextUserId := 2, nextPostId := 2, nextCommentId := 1 },
    session := some 1, flashes := [] }

/-- State with the admin and Bob registered, Bob logged in, one post. -/
def bobPostState : ServerState :=
  { db := { users := [adminUser, bobUser], posts := [samplePost],
            comments := [],
            nextUserId := 3, nextPostId := 2, nextCommentId := 1 },
    session := some 2, flashes := [] }

/-- State with one post and nobody logged in. -/
def anonPostState : ServerState :=
  { db := { users := [adminUser], posts := [samplePost], comments := [],
            nextUserId := 2, nextPostId := 2, nextCommentId := 1 },
    session := none, flashes := [] }

/-- The §8 scenario prefix that orphans a comment: the admin registers
(getting id 1), posts, comments on the post, then deletes the post. -/
def orphanSeq : List Req :=
  [.register "a@x.com" "pw1" "Alice",
   .newPost "T" "S" "B" "http:img" ⟨2024, 1, 1⟩,
   .comment "hi" 1,
   .deletePost 1]

/-! ## Helper lemmas -/

/-- An authenticated identity is a row of the users table. -/
lemma currentUser_mem {s : ServerState} {u : User}
    (h : currentUser s = some u) : u ∈ s.db.users := by
  unfold currentUser at h
  cases hs : s.session with
  | none => rw [hs] at h; simp [Option.bind] at h
  | some i =>
      rw [hs] at h
      simp only [Option.bind] at h
      exact List.mem_of_find?_eq_some h

/-! ## C1 -/

/-- C1: every non-admin identity hitting new-post, edit-post or
delete-post is claimed to receive a 403.  At the failing input — the
anonymous identity — `admin_only` reads `current_user.id` on an
identity that has no `id` attribute, so all three handlers raise
`AttributeError` (an unhandled 500-class failure), not a 403, though
the handler body still never runs and no row is mutated. -/
theorem C1_anonymous_admin_error :
    new_post "T" "S" "B" "http:img" ⟨2024, 1, 1⟩ anonPostState =
      .error .attributeError ∧
    edit_post 1 "T2" "S2" "B2" "http:img2" anonPostState =
      .error .attributeError ∧
    delete 1 anonPostState = .error .attributeError := by
  refine ⟨rfl, rfl, rfl⟩

/-! ## C10 -/

/-- C10: for an admin request with a post id matching no row, edit-post
dereferences `None.title` and delete calls `db.session.delete(None)`,
so neither produces a defined response: the error branch is reached. -/
theorem C10_missing_post_error (s : ServerState) (u : User) (pid : Nat)
    (t st b img : String)
    (hcu : currentUser s = some u) (h1 : u.id = 1)
    (hmiss : getPost s.db.posts pid = none) :
    edit_post pid t st b img s = .error .attributeError ∧
    delete pid s = .error .unmappedInstanceError := by
  constructor <;> simp [edit_post, delete, admin_only, hcu, h1, hmiss]

/-- Closed instance of C10: the admin asks for post id 3, which does
not exist in `adminPostState`. -/
theorem C10_missing_post_error_witness :
    edit_post 3 "T2" "S2" "B2" "http:img2" adminPostState =
      .error .attributeError ∧
    delete 3 adminPostState = .error .unmappedInstanceError :=
  C10_missing_post_error adminPostState adminUser 3 "T2" "S2" "B2"
    "http:img2" rfl rfl rfl

/-! ## C9 -/

/-- C9: a login POST whose email matches no registered user flashes the
unknown-email message, redirects back to login, returns normally (no
exception), and leaves the whole database and the session unchanged. -/
theorem C9_login_unknown_email (hasher : Hasher) (s : ServerState)
    (e p : String)
    (hmiss : ∀ u ∈ s.db.users, u.email ≠ e) :
    ∃ s', login hasher e p s = .ok (s', .redirectLogin) ∧
      s'.db = s.db ∧ s'.session = s.session ∧
      s'.flashes =
        s.flashes ++ ["That email does not exist, please try again"] := by
  have hfind : s.db.users.find? (fun u => u.email = e) = none :=
    List.find?_eq_none.mpr (by simpa using hmiss)
  refine ⟨{ s with flashes :=
      s.flashes ++ ["That email does not exist, please try again"] },
    ?_, rfl, rfl, rfl⟩
  simp [login, hfind]

/-- Closed instance of C9: no user of `adminPostState` has the email
`z@x.com`. -/
theorem C9_login_unknown_email_witness :
    ∃ s', login demoHasher "z@x.com" "pw" adminPostState =
        .ok (s', .redirectLogin) ∧
      s'.db = adminPostState.db ∧ s'.session = adminPostState.session ∧
      s'.flashes = adminPostState.flashes ++
        ["That email does not exist, please try again"] :=
  C9_login_unknown_email demoHasher adminPostState "z@x.com" "pw"
    (by decide)

/-! ## C4 -/

/-- C4: when some user already holds the submitted email, a second
registration POST creates no user row (the whole database is
unchanged), appends the duplicate-email flash, redirects to login, and
leaves the session as it was. -/
theorem C4_register_duplicate_email (hasher : Hasher) (s : ServerState)
    (e p n : String)
    (hdup : ∃ u ∈ s.db.users, u.email = e) :
    ∃ s', register hasher e p n s = .ok (s', .redirectLogin) ∧
      s'.db = s.db ∧ s'.session = s.session ∧
      s'.flashes = s.flashes ++ [dupEmailMsg] := by
  have hfind : (s.db.users.find? (fun u => u.email = e)).isSome :=
    List.find?_isSome.mpr (by simpa using hdup)
  refine ⟨{ s with flashes := s.flashes ++ [dupEmailMsg] },
    ?_, rfl, rfl, rfl⟩
  simp [register, hfind]

/-- Closed instance of C4: `a@x.com` is already registered in
`adminPostState`. -/
theorem C4_register_duplicate_email_witness :
    ∃ s', register demoHasher "a@x.com" "pw9" "Mallory" adminPostState =
        .ok (s', .redirectLogin) ∧
      s'.db = adminPostState.db ∧ s'.session = adminPostState.session ∧
      s'.flashes = adminPostState.flashes ++ [dupEmailMsg] :=
  C4_register_duplicate_email demoHasher adminPostState "a@x.com" "pw9"
    "Mallory" (by decide)

/-! ## C8 -/

/-- C8: a new-post POST by the admin appends exactly one post whose
date is the current server date formatted "Month DD, YYYY", whose
author is the current identity, and the response is a redirect to the
post list; no other table changes. -/
theorem C8_new_post_creates (s : ServerState) (u : User)
    (t st b img : String) (d : Date)
    (hcu : currentUser s = some u) (h1 : u.id = 1) :
    ∃ s', new_post t st b img d s = .ok (s', .redirectPosts) ∧
      s'.db.posts = s.db.posts ++
        [{ id := s.db.nextPostId, author_id := u.id, title := t,
           subtitle := st, date := formatDate d, body := b,
           img_url := img }] ∧
      s'.db.users = s.db.users ∧ s'.db.comments = s.db.comments ∧
      s'.session = s.session := by
  refine ⟨{ s with db := { s.db with
      posts := s.db.posts ++
        [{ id := s.db.nextPostId, author_id := u.id, title := t,
           subtitle := st, date := formatDate d, body := b,
           img_url := img }],
      nextPostId := s.db.nextPostId + 1 } }, ?_, rfl, rfl, rfl, rfl⟩
  simp [new_post, admin_only, hcu, h1]

/-- Closed instance of C8: the admin posts on March 5, 2024 from
`adminState`. -/
theorem C8_new_post_creates_witness :
    ∃ s', new_post "T" "S" "B" "http:img" ⟨2024, 3, 5⟩ adminState =
        .ok (s', .redirectPosts) ∧
      s'.db.posts = adminState.db.posts ++
        [{ id := adminState.db.nextPostId, author_id := adminUser.id,
           title := "T", subtitle := "S",
           date := formatDate ⟨2024, 3, 5⟩, body := "B",
           img_url := "http:img" }] ∧
      s'.db.users = adminState.db.users ∧
      s'.db.comments = adminState.db.comments ∧
      s'.session = adminState.session :=
  C8_new_post_creates adminState adminUser "T" "S" "B" "http:img"
    ⟨2024, 3, 5⟩ rfl rfl

/-! ## C2 -/

/-- C2: a comment POST on the post page by an authenticated identity
commits exactly one comment whose `author_id` is the submitting
identity's id and whose `post_id` is the id of the viewed post (the
`requested_post` resolved from the path id); an anonymous submission
only flashes and redirects to login, creating no comment row. -/
theorem C2_comment_links (text : String) (index : Nat) (s : ServerState) :
    (∀ u, currentUser s = some u →
      show_post_comment text index s =
        .ok ({ s with db := { s.db with
            comments := s.db.comments ++
              [{ id := s.db.nextCommentId, author_id := u.id,
                 post_id := (requestedPost s.db.posts index).map BlogPost.id,
                 text := text }],
            nextCommentId := s.db.nextCommentId + 1 } },
          .render "post.html")) ∧
    (currentUser s = none →
      show_post_comment text index s =
        .ok ({ s with flashes :=
            s.flashes ++ ["YOu need to login or register to comment"] },
          .redirectLogin)) := by
  constructor
  · intro u hcu
    simp [show_post_comment, hcu]
  · intro hanon
    simp [show_post_comment, hanon]

/-- Closed instance of C2: Bob (id 2) comments on post 1 in
`bobPostState`, and the same submission from `anonPostState` creates
nothing. -/
theorem C2_comment_links_witness :
    (show_post_comment "hi" 1 bobPostState =
      .ok ({ bobPostState with db := { bobPostState.db with
          comments := bobPostState.db.comments ++
            [{ id := bobPostState.db.nextCommentId,
               author_id := bobUser.id,
               post_id :=
                 (requestedPost bobPostState.db.posts 1).map BlogPost.id,
               text := "hi" }],
          nextCommentId := bobPostState.db.nextCommentId + 1 } },
        .render "post.html")) ∧
    (show_post_comment "hi" 1 anonPostState =
      .ok ({ anonPostState with flashes := anonPostState.flashes ++
          ["YOu need to login or register to comment"] },
        .redirectLogin)) :=
  ⟨(C2_comment_links "hi" 1 bobPostState).1 bobUser rfl,
   (C2_comment_links "hi" 1 anonPostState).2 rfl⟩

/-! ## C6 -/

/-- C6: an edit-post POST by the admin on an existing post rewrites
exactly title/subtitle/body/img_url of the matching row, keeps every
row's id, author_id and date, keeps every other post row identical,
leaves users, comments, session and flashes untouched, and redirects to
that post's page. -/
theorem C6_edit_post_frame (s : ServerState) (u : User) (orig : BlogPost)
    (pid : Nat) (t st b img : String)
    (hcu : currentUser s = some u) (h1 : u.id = 1)
    (hfind : getPost s.db.posts pid = some orig) :
    ∃ s',
      edit_post pid t st b img s = .ok (s', .redirectPost pid) ∧
      s'.db.users = s.db.users ∧
      s'.db.comments = s.db.comments ∧
      s'.session = s.session ∧
      s'.flashes = s.flashes ∧
      s'.db.posts.map (fun p => (p.id, p.author_id, p.date)) =
        s.db.posts.map (fun p => (p.id, p.author_id, p.date)) ∧
      (∀ p ∈ s.db.posts, p.id ≠ pid → p ∈ s'.db.posts) ∧
      (∀ p ∈ s'.db.posts, p.id = pid →
        p.title = t ∧ p.subtitle = st ∧ p.body = b ∧ p.img_url = img) := by
  refine ⟨{ s with db := { s.db with
      posts := s.db.posts.map (fun p =>
        if p.id = pid then
          { p with title := t, subtitle := st, body := b, img_url := img }
        else p) } }, ?_, rfl, rfl, rfl, rfl, ?_, ?_, ?_⟩
  · simp [edit_post, admin_only, hcu, h1, hfind]
  · rw [List.map_map]
    apply List.map_congr_left
    intro p _
    by_cases hp : p.id = pid <;> simp [hp]
  · intro p hp hne
    have hfix :
        (if p.id = pid then
          { p with title := t, subtitle := st, body := b, img_url := img }
        else p) = p := by simp [hne]
    simpa [hfix] using
      List.mem_map_of_mem (fun p =>
        if p.id = pid then
          { p with title := t, subtitle := st, body := b, img_url := img }
        else p) hp
  · intro p' hp' hid
    rcases List.mem_map.mp hp' with ⟨p, hp, hfp⟩
    by_cases hcase : p.id = pid
    · rw [if_pos hcase] at hfp
      rw [← hfp]
      exact ⟨rfl, rfl, rfl, rfl⟩
    · rw [if_neg hcase] at hfp
      rw [← hfp] at hid
      exact absurd hid hcase

/-- Closed instance of C6: the admin edits post 1 of `adminPostState`. -/
theorem C6_edit_post_frame_witness :
    ∃ s',
      edit_post 1 "T2" "S2" "B2" "http:img2" adminPostState =
        .ok (s', .redirectPost 1) ∧
      s'.db.users = adminPostState.db.users ∧
      s'.db.comments = adminPostState.db.comments ∧
      s'.session = adminPostState.session ∧
      s'.flashes = adminPostState.flashes ∧
      s'.db.posts.map (fun p => (p.id, p.author_id, p.date)) =
        adminPostState.db.posts.map (fun p => (p.id, p.author_id, p.date)) ∧
      (∀ p ∈ adminPostState.db.posts, p.id ≠ 1 → p ∈ s'.db.posts) ∧
      (∀ p ∈ s'.db.posts, p.id = 1 →
        p.title = "T2" ∧ p.subtitle = "S2" ∧ p.body = "B2" ∧
          p.img_url = "http:img2") :=
  C6_edit_post_frame adminPostState adminUser samplePost 1 "T2" "S2" "B2"
    "http:img2" rfl rfl rfl

/-! ## C7 -/

/-- C7: creating a post as the admin then reading it back by id yields
a row with exactly the submitted fields (and the formatted date and the
admin author); deleting that id then makes read-by-id fail and removes
the id from the list-all result. -/
theorem C7_create_read_delete (s : ServerState) (u : User)
    (t st b img : String) (d : Date)
    (hcu : currentUser s = some u) (h1 : u.id = 1)
    (hfresh : ∀ p ∈ s.db.posts, p.id ≠ s.db.nextPostId) :
    ∃ s1 s2,
      new_post t st b img d s = .ok (s1, .redirectPosts) ∧
      getPost s1.db.posts s.db.nextPostId =
        some { id := s.db.nextPostId, author_id := u.id, title := t,
               subtitle := st, date := formatDate d, body := b,
               img_url := img } ∧
      delete s.db.nextPostId s1 = .ok (s2, .redirectPosts) ∧
      getPost s2.db.posts s.db.nextPostId = none ∧
      ∀ p ∈ (get_all_posts s2).1, p.id ≠ s.db.nextPostId := by
  set pid := s.db.nextPostId with hpid
  set newBlog : BlogPost :=
    { id := pid, author_id := u.id, title := t, subtitle := st,
      date := formatDate d, body := b, img_url := img } with hnb
  set s1 : ServerState := { s with db := { s.db with
      posts := s.db.posts ++ [newBlog],
      nextPostId := s.db.nextPostId + 1 } } with hs1
  have hold : s.db.posts.find? (fun p => p.id = pid) = none :=
    List.find?_eq_none.mpr (by simpa using hfresh)
  have hget1 : getPost s1.db.posts pid = some newBlog := by
    simp [getPost, hs1, List.find?_append, hold, hnb]
  have hcu1 : currentUser s1 = some u := hcu
  set s2 : ServerState := { s1 with db := { s1.db with
      posts := s1.db.posts.filter (fun p => ¬ p.id = pid) } } with hs2
  refine ⟨s1, s2, ?_, hget1, ?_, ?_, ?_⟩
  · simp [new_post, admin_only, hcu, h1, hs1, hnb, hpid]
  · simp [delete, admin_only, hcu1, h1, hget1, hs2]
  · exact List.find?_eq_none.mpr (by simp [hs2, List.mem_filter])
  · intro p hp
    simp only [get_all_posts, hs2, List.mem_filter] at hp
    simpa using hp.2

/-- Closed instance of C7: the admin creates, reads back and deletes a
post starting from `adminState`. -/
theorem C7_create_read_delete_witness :
    ∃ s1 s2,
      new_post "T" "S" "B" "http:img" ⟨2024, 3, 5⟩ adminState =
        .ok (s1, .redirectPosts) ∧
      getPost s1.db.posts adminState.db.nextPostId =
        some { id := adminState.db.nextPostId, author_id := adminUser.id,
               title := "T", subtitle := "S",
               date := formatDate ⟨2024, 3, 5⟩, body := "B",
               img_url := "http:img" } ∧
      delete adminState.db.nextPostId s1 = .ok (s2, .redirectPosts) ∧
      getPost s2.db.posts adminState.db.nextPostId = none ∧
      ∀ p ∈ (get_all_posts s2).1, p.id ≠ adminState.db.nextPostId :=
  C7_create_read_delete adminState adminUser "T" "S" "B" "http:img"
    ⟨2024, 3, 5⟩ rfl rfl (by decide)

/-! ## C5 -/

/-- C5: after registering with a fresh email `e` and password `p` (so
the stored digest is `hash p`), and logging out, a login POST with
`(e, p)` establishes a session equal to the new user's id and redirects
to the post list (given the hasher contract that the stored digest
verifies against the original plaintext); a login POST with `e` and any
password that does not verify only flashes and redirects, and the
session stays `none`: it is never established. -/
theorem C5_register_login_roundtrip (hasher : Hasher) (s : ServerState)
    (e p n : String)
    (hnew : ∀ u ∈ s.db.users, u.email ≠ e)
    (hverify : hasher.check (hasher.hash p) p = true) :
    ∃ s1 s2,
      register hasher e p n s = .ok (s1, .redirectPosts) ∧
      s1.session = some s.db.nextUserId ∧
      logout s1 = .ok (s2, .redirectPosts) ∧
      s2.session = none ∧
      login hasher e p s2 =
        .ok ({ s2 with session := some s.db.nextUserId }, .redirectPosts) ∧
      (∀ q, hasher.check (hasher.hash p) q = false →
        login hasher e q s2 =
          .ok ({ s2 with flashes := s2.flashes ++
              ["Password incorrect, please try again"] },
            .redirectLogin)) := by
  have hfind0 : s.db.users.find? (fun u => u.email = e) = none :=
    List.find?_eq_none.mpr (by simpa using hnew)
  set newUser : User :=
    { id := s.db.nextUserId, email := e, password := hasher.hash p,
      name := n } with hnu
  set s1 : ServerState := { s with
      db := { s.db with users := s.db.users ++ [newUser],
                        nextUserId := s.db.nextUserId + 1 },
      session := some newUser.id } with hs1
  set s2 : ServerState := { s1 with session := none } with hs2
  have hfind2 : s2.db.users.find? (fun u => u.email = e) = some newUser := by
    simp [hs2, hs1, List.find?_append, hfind0, hnu]
  refine ⟨s1, s2, ?_, rfl, rfl, rfl, ?_, ?_⟩
  · simp [register, hfind0, hs1, hnu]
  · simp [login, hfind2, hnu, hverify]
  · intro q hq
    simp [login, hfind2, hnu, hq]

/-- Closed instance of C5: registering `b@x.com` from `adminState` with
the demo hasher, then logging out and logging back in. -/
theorem C5_register_login_roundtrip_witness :
    ∃ s1 s2,
      register demoHasher "b@x.com" "pw2" "Bob" adminState =
        .ok (s1, .redirectPosts) ∧
      s1.session = some adminState.db.nextUserId ∧
      logout s1 = .ok (s2, .redirectPosts) ∧
      s2.session = none ∧
      login demoHasher "b@x.com" "pw2" s2 =
        .ok ({ s2 with session := some adminState.db.nextUserId },
          .redirectPosts) ∧
      (∀ q, demoHasher.check (demoHasher.hash "pw2") q = false →
        login demoHasher "b@x.com" q s2 =
          .ok ({ s2 with flashes := s2.flashes ++
              ["Password incorrect, please try again"] },
            .redirectLogin)) :=
  C5_register_login_roundtrip demoHasher adminState "b@x.com" "pw2" "Bob"
    (by decide) (by decide)

/-! ## C3 -/

/-- C3, counterexample: running the concrete sequence register →
new-post → comment → delete-post from the empty deployment leaves a
comment whose `post_id` references a post that no longer exists, so
referential integrity as claimed fails after this handler sequence. -/
theorem C3_counterexample :
    ¬ commentsRefIntact (runAll demoHasher orphanSeq initState) := by
  decide

/-- Every handler leaves the users table monotone and keeps every
comment's author a registered user. -/
lemma run_preserves_authorsOk (hasher : Hasher) (a : Req)
    (s : ServerState) (h : commentAuthorsOk s) :
    commentAuthorsOk (run hasher a s) := by
  cases a with
  | register e p n =>
      by_cases hf : (s.db.users.find? (fun u => u.email = e)).isSome
      · simpa [run, step, register, hf, commentAuthorsOk] using h
      · intro c hc
        simp only [run, step, register, hf, if_false] at hc ⊢
        obtain ⟨u, hu, he⟩ := h c hc
        exact ⟨u, List.mem_append_left _ hu, he⟩
  | login e p =>
      cases hf : s.db.users.find? (fun u => u.email = e) with
      | none => simpa [run, step, login, hf, commentAuthorsOk] using h
      | some user =>
          by_cases hc : hasher.check user.password p <;>
            simpa [run, step, login, hf, hc, commentAuthorsOk] using h
  | logout => simpa [run, step, logout, commentAuthorsOk] using h
  | showPost i => simpa [run, step, show_post_get, commentAuthorsOk] using h
  | comment t i =>
      cases hcu : currentUser s with
      | none =>
          simpa [run, step, show_post_comment, hcu, commentAuthorsOk] using h
      | some u =>
          intro c hc
          simp only [run, step, show_post_comment, hcu,
            List.mem_append, List.mem_singleton] at hc ⊢
          rcases hc with hc | hc
          · exact h c hc
          · exact ⟨u, currentUser_mem hcu, by rw [hc]⟩
  | newPost t st b img d =>
      cases hcu : currentUser s with
      | none => simpa [run, step, new_post, admin_only, hcu] using h
      | some u =>
          by_cases h1 : u.id = 1 <;>
            simpa [run, step, new_post, admin_only, hcu, h1,
              commentAuthorsOk] using h
  | editPost pid t st b img =>
      cases hcu : currentUser s with
      | none => simpa [run, step, edit_post, admin_only, hcu] using h
      | some u =>
          by_cases h1 : u.id = 1
          · cases hg : getPost s.db.posts pid <;>
              simpa [run, step, edit_post, admin_only, hcu, h1, hg,
                commentAuthorsOk] using h
          · simpa [run, step, edit_post, admin_only, hcu, h1,
              commentAuthorsOk] using h
  | deletePost pid =>
      cases hcu : currentUser s with
      | none => simpa [run, step, delete, admin_only, hcu] using h
      | some u =>
          by_cases h1 : u.id = 1
          · cases hg : getPost s.db.posts pid <;>
              simpa [run, step, delete, admin_only, hcu, h1, hg,
                commentAuthorsOk] using h
          · simpa [run, step, delete, admin_only, hcu, h1,
              commentAuthorsOk] using h

/-- The author half of referential integrity is preserved by whole
request sequences. -/
lemma runAll_preserves_authorsOk (hasher : Hasher) (acts : List Req)
    (s : ServerState) (h : commentAuthorsOk s) :
    commentAuthorsOk (runAll hasher acts s) := by
  induction acts generalizing s with
  | nil => exact h
  | cons a rest ih =>
      exact ih (run hasher a s) (run_preserves_authorsOk hasher a s h)

/-- C3, amended: after every sequence of handler invocations from the
empty deployment state, every comment's `author_id` references an
existing user row; the post half of the claimed invariant is dropped,
since `delete` does not cascade comments and a comment on a missing
post id is committed with a null parent reference. -/
theorem C3_amended_comment_authors (hasher : Hasher) (acts : List Req) :
    commentAuthorsOk (runAll hasher acts initState) :=
  runAll_preserves_authorsOk hasher acts initState
    (by intro c hc; simp [initState] at hc)
